import Mathlib

/-!
Verification of the finance-tracker domain core.

Shallow embedding of the repository's domain entity `Account`
(src/domain/entities/account.rs), its error type `DomainError`
(src/domain/errors.rs), the list-backed store (src/storage.rs) and the
use-case service (src/application/services/account_service.rs).

Modelling conventions:
* The Rust `i64` balance is an `Int`; the `+=` / `-=` arithmetic of the
  source is embedded with an explicit two's-complement wrap at 2^64
  (release-mode Rust semantics for overflowing `i64` arithmetic).
* `Uuid` identifiers are opaque `Nat`s supplied by the caller (the source
  generates them with `Uuid::new_v4()`).
* `DateTime<Utc>` timestamps are `Nat`s; every operation that calls
  `Utc::now()` in the source takes the current time as an explicit
  argument.  Wall-clock monotonicity is a hypothesis where a claim
  needs it.
* A Rust method on `&mut self` returning `Result<(), DomainError>` is
  embedded as a function `Account → ... → Account × Option DomainError`:
  the first component is the state of `self` after the call, the second
  is `some e` exactly when the source returns `Err(e)`.
-/

namespace FinanceTracker

/-- The value `i64::MIN` = -2^63. -/
def I64_MIN : Int := -9223372036854775808

/-- The value `i64::MAX` = 2^63 - 1. -/
def I64_MAX : Int := 9223372036854775807

/-- Two's-complement wrap of an integer into the `i64` range
`[-2^63, 2^63)`: how release-mode Rust evaluates an overflowing `i64`
addition or subtraction. -/
def wrap64 (x : Int) : Int :=
  (x + 9223372036854775808) % 18446744073709551616 - 9223372036854775808

/-- The error type `DomainError` from src/domain/errors.rs: the four business-rule
failures. -/
inductive DomainError where
  | InvalidAmount (reason : String)
  | InsufficientFunds (available requested : Int)
  | AccountNotFound (identifier : String)
  | AccountAlreadyExists (name : String)
deriving Repr, DecidableEq

/-- The domain entity `Account` from src/domain/entities/account.rs:
balance is an `i64` count of minor currency units. -/
structure Account where
  id : Nat
  name : String
  balance : Int
  currency : String
  created_at : Nat
  updated_at : Nat
deriving Repr, DecidableEq

/-- Constructor `Account::new(name, currency)`: fresh id, balance 0, both timestamps
set to the same current instant `now`. -/
def Account.new (name currency : String) (id : Nat) (now : Nat) : Account :=
  { id := id
    name := name
    balance := 0
    currency := currency
    created_at := now
    updated_at := now }

/-- Operation `Account::deposit(&mut self, amount)`: rejects `amount <= 0` with
`InvalidAmount`, otherwise performs `self.balance += amount` (i64 wrap)
and refreshes `updated_at`. -/
def Account.deposit (a : Account) (amount : Int) (now : Nat) :
    Account × Option DomainError :=
  if amount ≤ 0 then
    (a, some (DomainError.InvalidAmount "Amount must be positive"))
  else
    ({ a with balance := wrap64 (a.balance + amount), updated_at := now }, none)

/-- Operation `Account::withdraw(&mut self, amount)`: rejects `amount <= 0` with
`InvalidAmount`, rejects `self.balance < amount` with
`InsufficientFunds { available, requested }`, otherwise performs
`self.balance -= amount` (i64 wrap) and refreshes `updated_at`. -/
def Account.withdraw (a : Account) (amount : Int) (now : Nat) :
    Account × Option DomainError :=
  if amount ≤ 0 then
    (a, some (DomainError.InvalidAmount "Amount must be positive"))
  else if a.balance < amount then
    (a, some (DomainError.InsufficientFunds a.balance amount))
  else
    ({ a with balance := wrap64 (a.balance - amount), updated_at := now }, none)

/-! ## Operation traces over one account -/

/-- One entity-level call in a trace: a deposit or a withdrawal, tagged
with the wall-clock instant at which the call runs. -/
inductive Op where
  | deposit (amount : Int) (now : Nat)
  | withdraw (amount : Int) (now : Nat)
deriving Repr, DecidableEq

/-- The wall-clock instant of a call. -/
def Op.time : Op → Nat
  | .deposit _ now => now
  | .withdraw _ now => now

/-- Run one call against the account, returning the state of the account
after the call together with the error the call reported, if any.  A
failed call leaves the account exactly as it was (the source returns
before touching any field). -/
def applyOp (a : Account) : Op → Account × Option DomainError
  | .deposit amount now => a.deposit amount now
  | .withdraw amount now => a.withdraw amount now

/-- Run a whole trace of calls; only the successful calls take effect
(a failed call leaves the state unchanged, see `applyOp`). -/
def applyOps (a : Account) : List Op → Account
  | [] => a
  | op :: ops => applyOps (applyOp a op).1 ops

/-- Returns `true` when at least one call of the trace succeeds, i.e. the account
is successfully mutated somewhere along the trace. -/
def anySuccess (a : Account) : List Op → Bool
  | [] => false
  | op :: ops => (applyOp a op).2.isNone || anySuccess (applyOp a op).1 ops

/-- Returns `true` when every (would-be successful) deposit of the trace keeps the
exact sum inside the `i64` range, so no `self.balance += amount` in the
trace overflows. -/
def depositsFit (a : Account) : List Op → Bool
  | [] => true
  | op :: ops =>
    (match op with
     | Op.deposit amount _ => decide (amount ≤ 0 ∨ a.balance + amount ≤ I64_MAX)
     | Op.withdraw _ _ => true) && depositsFit (applyOp a op).1 ops

/-- Strictly increasing wall clock along a trace, starting strictly after
instant `t`. -/
def timesIncreasing : Nat → List Op → Bool
  | _, [] => true
  | t, op :: ops => decide (t < op.time) && timesIncreasing op.time ops

/-! ## Basic lemmas -/

/-- The wrap `wrap64` is the identity on values already in the `i64` range. -/
theorem wrap64_eq_self {x : Int} (h1 : I64_MIN ≤ x) (h2 : x ≤ I64_MAX) :
    wrap64 x = x := by
  unfold wrap64
  unfold I64_MIN at h1
  unfold I64_MAX at h2
  omega

/-! ## C2: withdrawal beyond the balance -/

/-- C2: for every account and amount with `0 < amount` and
`balance < amount`, `withdraw` reports `InsufficientFunds` carrying
`available = balance` and `requested = amount`, and the whole account
(every field) is left unchanged. -/
theorem c2_withdraw_insufficient (a : Account) (amount : Int) (now : Nat)
    (hpos : 0 < amount) (hlt : a.balance < amount) :
    a.withdraw amount now =
      (a, some (DomainError.InsufficientFunds a.balance amount)) := by
  unfold Account.withdraw
  rw [if_neg (by omega), if_pos hlt]

/-- Witness for C2 at a concrete account and amount. -/
theorem c2_withdraw_insufficient_witness :
    (Account.new "Savings" "USD" 0 0).withdraw 6000 1 =
      (Account.new "Savings" "USD" 0 0,
        some (DomainError.InsufficientFunds 0 6000)) :=
  c2_withdraw_insufficient (Account.new "Savings" "USD" 0 0) 6000 1
    (by decide) (by decide)

/-! ## C3: non-positive amounts -/

/-- C3: for every account and amount `≤ 0`, both `deposit` and `withdraw`
report `InvalidAmount` and leave the entire account state unchanged. -/
theorem c3_invalid_amount (a : Account) (amount : Int) (now : Nat)
    (hle : amount ≤ 0) :
    a.deposit amount now =
      (a, some (DomainError.InvalidAmount "Amount must be positive")) ∧
    a.withdraw amount now =
      (a, some (DomainError.InvalidAmount "Amount must be positive")) := by
  constructor
  · unfold Account.deposit
    rw [if_pos hle]
  · unfold Account.withdraw
    rw [if_pos hle]

/-- Witness for C3 at a concrete account and the amount `-3`. -/
theorem c3_invalid_amount_witness :
    (Account.new "W" "EUR" 1 5).deposit (-3) 6 =
      (Account.new "W" "EUR" 1 5,
        some (DomainError.InvalidAmount "Amount must be positive")) ∧
    (Account.new "W" "EUR" 1 5).withdraw (-3) 6 =
      (Account.new "W" "EUR" 1 5,
        some (DomainError.InvalidAmount "Amount must be positive")) :=
  c3_invalid_amount (Account.new "W" "EUR" 1 5) (-3) 6 (by decide)

/-! ## C10: withdrawing exactly the full balance -/

/-- C10: withdrawing exactly the full (positive) balance succeeds and
leaves the balance at exactly 0; `InsufficientFunds` is reported only for
amounts strictly greater than the balance. -/
theorem c10_withdraw_all (a : Account) (now : Nat) (hpos : 0 < a.balance) :
    a.withdraw a.balance now =
      ({ a with balance := 0, updated_at := now }, none) ∧
    ∀ amount available requested,
      (a.withdraw amount now).2 =
          some (DomainError.InsufficientFunds available requested) →
        a.balance < amount := by
  constructor
  · unfold Account.withdraw
    rw [if_neg (by omega), if_neg (by omega)]
    have : wrap64 (a.balance - a.balance) = 0 := by
      rw [sub_self]
      unfold wrap64
      decide
    rw [this]
  · intro amount available requested h
    unfold Account.withdraw at h
    by_cases h1 : amount ≤ 0
    · rw [if_pos h1] at h
      simp at h
    · rw [if_neg h1] at h
      by_cases h2 : a.balance < amount
      · exact h2
      · rw [if_neg h2] at h
        simp at h

/-- Witness for C10 at a concrete account with balance 5050. -/
theorem c10_withdraw_all_witness :
    ({ id := 0, name := "S", balance := 5050, currency := "USD",
       created_at := 0, updated_at := 0 } : Account).withdraw 5050 7 =
      ({ id := 0, name := "S", balance := 0, currency := "USD",
         created_at := 0, updated_at := 7 }, none) :=
  (c10_withdraw_all
    { id := 0, name := "S", balance := 5050, currency := "USD",
      created_at := 0, updated_at := 0 } 7 (by decide)).1

/-! ## C7: deposit arithmetic -/

/-- C7 as stated is false: at `balance = i64::MAX`, `deposit 1` succeeds
but `self.balance += amount` overflows `i64`, wrapping the balance to
`i64::MIN` instead of the exact sum `i64::MAX + 1`. -/
theorem c7_counterexample :
    (({ id := 0, name := "A", balance := I64_MAX, currency := "USD",
        created_at := 0, updated_at := 0 } : Account).deposit 1 1).2 = none ∧
    (({ id := 0, name := "A", balance := I64_MAX, currency := "USD",
        created_at := 0, updated_at := 0 } : Account).deposit 1 1).1.balance
      = I64_MIN ∧
    I64_MIN ≠ I64_MAX + 1 := by
  decide

/-- C7 amended: `deposit` has no upper-bound check — it succeeds for every
`amount > 0` whatever the balance — and the resulting balance equals
`balance + amount` exactly whenever that exact sum fits in `i64`. -/
theorem c7_deposit_exact (a : Account) (amount : Int) (now : Nat)
    (hpos : 0 < amount) :
    (a.deposit amount now).2 = none ∧
    (I64_MIN ≤ a.balance + amount → a.balance + amount ≤ I64_MAX →
      (a.deposit amount now).1.balance = a.balance + amount) := by
  unfold Account.deposit
  rw [if_neg (by omega)]
  exact ⟨rfl, fun h1 h2 => wrap64_eq_self h1 h2⟩

/-- Witness for C7: a deposit of 10050 on a zero balance yields exactly
10050. -/
theorem c7_deposit_exact_witness :
    ((Account.new "Savings" "USD" 0 0).deposit 10050 1).2 = none ∧
    ((Account.new "Savings" "USD" 0 0).deposit 10050 1).1.balance = 0 + 10050 :=
  ⟨(c7_deposit_exact (Account.new "Savings" "USD" 0 0) 10050 1 (by decide)).1,
   (c7_deposit_exact (Account.new "Savings" "USD" 0 0) 10050 1 (by decide)).2
     (by decide) (by decide)⟩

/-! ## C6: deposit-then-withdraw round trip -/

/-- C6 as stated is false at the top of the `i64` range: with
`balance = amount = i64::MAX` (so `0 < amount ≤ balance` holds), the
deposit succeeds but wraps the balance to `-2`, and the immediately
following withdrawal of the same amount then fails with
`InsufficientFunds` instead of succeeding. -/
theorem c6_counterexample :
    (0 : Int) < I64_MAX ∧
    I64_MAX ≤ (Account.mk 0 "A" I64_MAX "USD" 0 0).balance ∧
    ((Account.mk 0 "A" I64_MAX "USD" 0 0).deposit I64_MAX 1).2 = none ∧
    (((Account.mk 0 "A" I64_MAX "USD" 0 0).deposit I64_MAX 1).1.withdraw
        I64_MAX 2).2
      = some (DomainError.InsufficientFunds (-2) I64_MAX) := by
  decide

/-- C6 amended: whenever `0 < amount ≤ balance` and the intermediate sum
`balance + amount` still fits in `i64`, `deposit amount` followed
immediately by `withdraw amount` both succeed, restore the original
balance and leave `currency`, `id` and `name` unchanged. -/
theorem c6_deposit_withdraw_roundtrip (a : Account) (amount : Int)
    (n1 n2 : Nat) (hpos : 0 < amount) (hle : amount ≤ a.balance)
    (hfit : a.balance + amount ≤ I64_MAX) :
    (a.deposit amount n1).2 = none ∧
    ((a.deposit amount n1).1.withdraw amount n2).2 = none ∧
    ((a.deposit amount n1).1.withdraw amount n2).1.balance = a.balance ∧
    ((a.deposit amount n1).1.withdraw amount n2).1.currency = a.currency ∧
    ((a.deposit amount n1).1.withdraw amount n2).1.id = a.id ∧
    ((a.deposit amount n1).1.withdraw amount n2).1.name = a.name := by
  have hdep : a.deposit amount n1 =
      ({ a with balance := a.balance + amount, updated_at := n1 }, none) := by
    unfold Account.deposit
    rw [if_neg (by omega),
        wrap64_eq_self (by unfold I64_MIN; omega) hfit]
  have hwd : ({ a with balance := a.balance + amount, updated_at := n1 } :
        Account).withdraw amount n2 =
      ({ a with balance := a.balance, updated_at := n2 }, none) := by
    unfold Account.withdraw
    rw [if_neg (by omega)]
    rw [show ({ a with balance := a.balance + amount, updated_at := n1 } :
          Account).balance = a.balance + amount from rfl]
    rw [if_neg (by omega),
        show a.balance + amount - amount = a.balance by omega,
        wrap64_eq_self (by unfold I64_MIN; omega)
          (by unfold I64_MAX at hfit ⊢; omega)]
  rw [hdep, hwd]
  exact ⟨rfl, rfl, rfl, rfl, rfl, rfl⟩

/-- Witness for C6 at balance 5050, amount 5000. -/
theorem c6_deposit_withdraw_roundtrip_witness :
    ((Account.mk 3 "S" 5050 "USD" 0 0).deposit 5000 1).2 = none ∧
    (((Account.mk 3 "S" 5050 "USD" 0 0).deposit 5000 1).1.withdraw
        5000 2).2 = none ∧
    (((Account.mk 3 "S" 5050 "USD" 0 0).deposit 5000 1).1.withdraw
        5000 2).1.balance = 5050 := by
  have h := c6_deposit_withdraw_roundtrip (Account.mk 3 "S" 5050 "USD" 0 0)
    5000 1 2 (by decide) (by decide) (by decide)
  exact ⟨h.1, h.2.1, h.2.2.1⟩

/-! ## C1: the balance never goes negative -/

/-- Inductive invariant: along any trace whose successful deposits never
overflow `i64`, the balance stays within `[0, i64::MAX]`. -/
theorem balance_invariant (ops : List Op) :
    ∀ a : Account, 0 ≤ a.balance → a.balance ≤ I64_MAX →
      depositsFit a ops = true →
      0 ≤ (applyOps a ops).balance ∧ (applyOps a ops).balance ≤ I64_MAX := by
  induction ops with
  | nil => exact fun a h0 h1 _ => ⟨h0, h1⟩
  | cons op ops ih =>
    intro a h0 h1 hfit
    cases op with
    | deposit amount now =>
      simp only [depositsFit, Bool.and_eq_true, decide_eq_true_eq] at hfit
      obtain ⟨hop, hrest⟩ := hfit
      simp only [applyOps]
      by_cases hneg : amount ≤ 0
      · have hstate : (applyOp a (Op.deposit amount now)).1 = a := by
          simp [applyOp, Account.deposit, hneg]
        rw [hstate] at hrest ⊢
        exact ih a h0 h1 hrest
      · have hmax : a.balance + amount ≤ I64_MAX := by tauto
        have hstate : (applyOp a (Op.deposit amount now)).1 =
            { a with balance := a.balance + amount, updated_at := now } := by
          simp [applyOp, Account.deposit, hneg]
          exact wrap64_eq_self (by unfold I64_MIN; omega) hmax
        rw [hstate] at hrest ⊢
        exact ih _ (by simp; omega) (by simpa using hmax) hrest
    | withdraw amount now =>
      simp only [depositsFit, Bool.true_and] at hfit
      simp only [applyOps]
      by_cases hneg : amount ≤ 0
      · have hstate : (applyOp a (Op.withdraw amount now)).1 = a := by
          simp [applyOp, Account.withdraw, hneg]
        rw [hstate] at hfit ⊢
        exact ih a h0 h1 hfit
      · by_cases hins : a.balance < amount
        · have hstate : (applyOp a (Op.withdraw amount now)).1 = a := by
            simp [applyOp, Account.withdraw, hneg, hins]
          rw [hstate] at hfit ⊢
          exact ih a h0 h1 hfit
        · have hstate : (applyOp a (Op.withdraw amount now)).1 =
              { a with balance := a.balance - amount, updated_at := now } := by
            simp [applyOp, Account.withdraw, hneg, hins]
            exact wrap64_eq_self (by unfold I64_MIN; omega) (by omega)
          rw [hstate] at hfit ⊢
          exact ih _ (by simp; omega) (by simp; omega) hfit

/-- C1 as stated is false: starting from a fresh account, two deposits of
`i64::MAX` both succeed, yet the second `self.balance += amount` wraps the
balance to `-2 < 0`. -/
theorem c1_counterexample :
    (applyOp (Account.new "A" "USD" 0 0)
        (Op.deposit 9223372036854775807 1)).2 = none ∧
    (applyOp (applyOp (Account.new "A" "USD" 0 0)
          (Op.deposit 9223372036854775807 1)).1
        (Op.deposit 9223372036854775807 2)).2 = none ∧
    (applyOps (Account.new "A" "USD" 0 0)
        [Op.deposit 9223372036854775807 1,
         Op.deposit 9223372036854775807 2]).balance < 0 := by
  decide

/-- C1 amended: for every account built by `Account.new` and every trace of
deposit/withdraw calls in which only the successful calls take effect and
no successful deposit overflows `i64`, the balance stays `≥ 0`. -/
theorem c1_balance_nonneg (name currency : String) (id t0 : Nat)
    (ops : List Op)
    (hfit : depositsFit (Account.new name currency id t0) ops = true) :
    0 ≤ (applyOps (Account.new name currency id t0) ops).balance :=
  (balance_invariant ops (Account.new name currency id t0)
    (by simp [Account.new]) (by simp [Account.new]; decide) hfit).1

/-- Witness for C1 on the spec's scenario trace: deposit 10050, withdraw
5000, then a failing withdraw 6000. -/
theorem c1_balance_nonneg_witness :
    depositsFit (Account.new "Savings" "USD" 0 0)
        [Op.deposit 10050 1, Op.withdraw 5000 2, Op.withdraw 6000 3]
      = true ∧
    0 ≤ (applyOps (Account.new "Savings" "USD" 0 0)
        [Op.deposit 10050 1, Op.withdraw 5000 2, Op.withdraw 6000 3]).balance :=
  ⟨by decide,
   c1_balance_nonneg "Savings" "USD" 0 0
     [Op.deposit 10050 1, Op.withdraw 5000 2, Op.withdraw 6000 3] (by decide)⟩

/-! ## C8: timestamp evolution -/

/-- No entity call ever touches `created_at`. -/
theorem applyOp_created_at (a : Account) (op : Op) :
    (applyOp a op).1.created_at = a.created_at := by
  cases op with
  | deposit amount now =>
    by_cases h : amount ≤ 0 <;> simp [applyOp, Account.deposit, h]
  | withdraw amount now =>
    by_cases h : amount ≤ 0
    · simp [applyOp, Account.withdraw, h]
    · by_cases h2 : a.balance < amount <;>
        simp [applyOp, Account.withdraw, h, h2]

/-- A successful call stamps `updated_at` with the call's instant. -/
theorem applyOp_success_time (a : Account) (op : Op)
    (h : (applyOp a op).2 = none) :
    (applyOp a op).1.updated_at = op.time := by
  cases op with
  | deposit amount now =>
    by_cases hneg : amount ≤ 0
    · simp [applyOp, Account.deposit, hneg] at h
    · simp [applyOp, Account.deposit, hneg, Op.time]
  | withdraw amount now =>
    by_cases hneg : amount ≤ 0
    · simp [applyOp, Account.withdraw, hneg] at h
    · by_cases h2 : a.balance < amount
      · simp [applyOp, Account.withdraw, hneg, h2] at h
      · simp [applyOp, Account.withdraw, hneg, h2, Op.time]

/-- A failed call leaves the account exactly as it was. -/
theorem applyOp_fail_eq (a : Account) (op : Op)
    (h : (applyOp a op).2 ≠ none) : (applyOp a op).1 = a := by
  cases op with
  | deposit amount now =>
    by_cases hneg : amount ≤ 0
    · simp [applyOp, Account.deposit, hneg]
    · simp [applyOp, Account.deposit, hneg] at h
  | withdraw amount now =>
    by_cases hneg : amount ≤ 0
    · simp [applyOp, Account.withdraw, hneg]
    · by_cases h2 : a.balance < amount
      · simp [applyOp, Account.withdraw, hneg, h2]
      · simp [applyOp, Account.withdraw, hneg, h2] at h

/-- Evolution of the timestamps along a trace run under a strictly
increasing wall clock: `created_at` never changes, `updated_at` never
decreases, it strictly increases exactly when some call of the trace
succeeds, and it stays put exactly when none does. -/
theorem updated_at_evolution (ops : List Op) :
    ∀ (a : Account) (t : Nat), a.updated_at ≤ t →
      timesIncreasing t ops = true →
      (applyOps a ops).created_at = a.created_at ∧
      a.updated_at ≤ (applyOps a ops).updated_at ∧
      (anySuccess a ops = true → a.updated_at < (applyOps a ops).updated_at) ∧
      (anySuccess a ops = false → (applyOps a ops).updated_at = a.updated_at)
    := by
  induction ops with
  | nil =>
    intro a t _ _
    simp [applyOps, anySuccess]
  | cons op ops ih =>
    intro a t hle htimes
    simp only [timesIncreasing, Bool.and_eq_true, decide_eq_true_eq] at htimes
    obtain ⟨ht, htimes⟩ := htimes
    simp only [applyOps, anySuccess]
    by_cases hsucc : (applyOp a op).2 = none
    · have htime := applyOp_success_time a op hsucc
      have hcreated := applyOp_created_at a op
      obtain ⟨ih1, ih2, ih3, ih4⟩ :=
        ih (applyOp a op).1 op.time (le_of_eq htime) htimes
      refine ⟨by rw [ih1, hcreated], by omega, fun _ => by omega, ?_⟩
      intro hfalse
      rw [hsucc] at hfalse
      simp at hfalse
    · have heq := applyOp_fail_eq a op hsucc
      have hiss : (applyOp a op).2.isNone = false := by
        cases hx : (applyOp a op).2 with
        | none => exact absurd hx hsucc
        | some e => simp
      rw [heq, hiss]
      simp only [Bool.false_or]
      exact ih a op.time (by omega) htimes

/-- C8: for every account built by `Account.new` and every trace of calls
run under a strictly increasing wall clock, `updated_at ≥ created_at`
holds after the trace, with equality exactly when no call of the trace
succeeded (the account was never successfully mutated). -/
theorem c8_updated_at_invariant (name currency : String) (id t0 : Nat)
    (ops : List Op) (h : timesIncreasing t0 ops = true) :
    (applyOps (Account.new name currency id t0) ops).created_at ≤
      (applyOps (Account.new name currency id t0) ops).updated_at ∧
    ((applyOps (Account.new name currency id t0) ops).updated_at =
        (applyOps (Account.new name currency id t0) ops).created_at ↔
      anySuccess (Account.new name currency id t0) ops = false) := by
  obtain ⟨h1, h2, h3, h4⟩ :=
    updated_at_evolution ops (Account.new name currency id t0) t0
      (le_of_eq rfl) h
  have hc : (Account.new name currency id t0).created_at = t0 := rfl
  have hu : (Account.new name currency id t0).updated_at = t0 := rfl
  rw [hc] at h1
  rw [hu] at h2 h3 h4
  refine ⟨by omega, ?_, ?_⟩
  · intro heq
    cases hx : anySuccess (Account.new name currency id t0) ops with
    | false => rfl
    | true => have := h3 hx; omega
  · intro hs
    have := h4 hs
    omega

/-- Witness for C8 on a concrete trace: a successful deposit followed by a
failing withdrawal, under clock instants 0 < 1 < 2. -/
theorem c8_updated_at_invariant_witness :
    timesIncreasing 0 [Op.deposit 5 1, Op.withdraw 99 2] = true ∧
    ((applyOps (Account.new "W" "USD" 4 0)
        [Op.deposit 5 1, Op.withdraw 99 2]).created_at ≤
      (applyOps (Account.new "W" "USD" 4 0)
        [Op.deposit 5 1, Op.withdraw 99 2]).updated_at ∧
    ((applyOps (Account.new "W" "USD" 4 0)
        [Op.deposit 5 1, Op.withdraw 99 2]).updated_at =
        (applyOps (Account.new "W" "USD" 4 0)
          [Op.deposit 5 1, Op.withdraw 99 2]).created_at ↔
      anySuccess (Account.new "W" "USD" 4 0)
        [Op.deposit 5 1, Op.withdraw 99 2] = false)) :=
  ⟨by decide,
   c8_updated_at_invariant "W" "USD" 4 0 [Op.deposit 5 1, Op.withdraw 99 2]
     (by decide)⟩

/-! ## The store and the use-case service

The list-backed store of src/storage.rs, which is also the shape the
`AccountRepository` port (src/application/ports/account_repository.rs)
presents to the use-case service: the PostgreSQL implementation realises
the same contract over a table.  The pure list store never produces a
repository error (like the test mock whose error type is `Infallible`).
-/

/-- Embedding of Rust `str::to_lowercase`, embedded character-wise over the string's
characters (`Char.toLower` agrees with it on the alphabets the claims
exercise); the SQL implementation's `LOWER(name) = LOWER($1)` computes the
same comparison key. -/
def toLowercase (s : String) : String := ⟨s.data.map Char.toLower⟩

/-- The store: a sequence of accounts (`Storage { accounts: Vec<Account> }`). -/
structure Storage where
  accounts : List Account
deriving Repr, DecidableEq

/-- Lookup `Storage::find_account_by_name` /
`AccountRepository::find_by_name`: first account whose name matches the
requested one case-insensitively (`a.name.to_lowercase() ==
name.to_lowercase()`). -/
def Storage.find_account_by_name (s : Storage) (name : String) :
    Option Account :=
  s.accounts.find? (fun a => toLowercase a.name == toLowercase name)

/-- Lookup `AccountRepository::find_by_id` (`Storage::get_account` in the CLI
variant): lookup by exact id. -/
def Storage.find_by_id (s : Storage) (id : Nat) : Option Account :=
  s.accounts.find? (fun a => a.id == id)

/-- Insertion `AccountRepository::create` (`Storage::add_account` in the CLI
variant): append the new record. -/
def Storage.create (s : Storage) (a : Account) : Storage :=
  ⟨s.accounts ++ [a]⟩

/-- Write-back `AccountRepository::update`: overwrite the full record stored under
the account's id. -/
def Storage.update (s : Storage) (a : Account) : Storage :=
  ⟨s.accounts.map (fun b => if b.id == a.id then a else b)⟩

/-- The error channel `AccountServiceError` from account_service.rs: domain failures versus
opaque repository failures (never produced by the pure list store). -/
inductive AccountServiceError where
  | Domain (e : DomainError)
  | Repository (message : String)
deriving Repr, DecidableEq

/-- Use case `AccountService::create_account`: look the name up via
`find_by_name`; if some account matches, fail with
`AccountAlreadyExists(name)` without touching the store; otherwise build
`Account::new(name, currency)` and persist it via the store's `create`.
The fresh id and the current instant are explicit arguments (the source
draws them from `Uuid::new_v4()` and `Utc::now()`). -/
def create_account (s : Storage) (name currency : String)
    (freshId : Nat) (now : Nat) :
    Storage × Except AccountServiceError Account :=
  match s.find_account_by_name name with
  | some _ =>
      (s, Except.error (AccountServiceError.Domain
        (DomainError.AccountAlreadyExists name)))
  | none =>
      let account := Account.new name currency freshId now
      (s.create account, Except.ok account)

/-- Use case `AccountService::deposit`: find the account by id (else
`AccountNotFound`), run the entity's `deposit`, and only on success write
the mutated account back via `update`.  The presentation-side conversion
of the request amount (`(request.amount * 100.0).round() as i64`) happens
before this logic; the model takes the already-converted minor-unit
amount. -/
def service_deposit (s : Storage) (id : Nat) (amountCents : Int)
    (now : Nat) : Storage × Except AccountServiceError Account :=
  match s.find_by_id id with
  | none =>
      (s, Except.error (AccountServiceError.Domain
        (DomainError.AccountNotFound (toString id))))
  | some account =>
      match account.deposit amountCents now with
      | (_, some e) => (s, Except.error (AccountServiceError.Domain e))
      | (a1, none) => (s.update a1, Except.ok a1)

/-- Use case `AccountService::withdraw`: identical shape to `service_deposit`, but
calling the entity's `withdraw`. -/
def service_withdraw (s : Storage) (id : Nat) (amountCents : Int)
    (now : Nat) : Storage × Except AccountServiceError Account :=
  match s.find_by_id id with
  | none =>
      (s, Except.error (AccountServiceError.Domain
        (DomainError.AccountNotFound (toString id))))
  | some account =>
      match account.withdraw amountCents now with
      | (_, some e) => (s, Except.error (AccountServiceError.Domain e))
      | (a1, none) => (s.update a1, Except.ok a1)

/-! ## C4: account creation and name uniqueness -/

/-- C4: if some stored account's name matches the requested name
case-insensitively, `create_account` fails with
`AccountAlreadyExists(name)` and the store is left exactly as it was (its
`create` is never reached); otherwise the fresh `Account::new` record —
whose balance is 0 — is appended via `create` and returned. -/
theorem c4_create_account (s : Storage) (name currency : String)
    (freshId now : Nat) :
    ((∃ a ∈ s.accounts, toLowercase a.name = toLowercase name) →
      create_account s name currency freshId now =
        (s, Except.error (AccountServiceError.Domain
          (DomainError.AccountAlreadyExists name)))) ∧
    ((∀ a ∈ s.accounts, toLowercase a.name ≠ toLowercase name) →
      create_account s name currency freshId now =
        (s.create (Account.new name currency freshId now),
         Except.ok (Account.new name currency freshId now)) ∧
      (Account.new name currency freshId now).balance = 0) := by
  constructor
  · rintro ⟨a, ha, hname⟩
    have hbeq : (toLowercase a.name == toLowercase name) = true := by
      simpa using hname
    cases hw : s.find_account_by_name name with
    | none =>
      rw [Storage.find_account_by_name, List.find?_eq_none] at hw
      exact absurd hbeq (hw a ha)
    | some w =>
      simp only [create_account, hw]
  · intro h
    have hnone : s.find_account_by_name name = none := by
      rw [Storage.find_account_by_name, List.find?_eq_none]
      intro x hx
      simpa using h x hx
    simp only [create_account, hnone]
    exact ⟨trivial, rfl⟩

/-- Witness for C4: creating "WALLET" against a store already holding
"Wallet" collides case-insensitively; creating "Wallet" against the empty
store succeeds with balance 0. -/
theorem c4_create_account_witness :
    (create_account ⟨[Account.mk 0 "Wallet" 0 "USD" 0 0]⟩ "WALLET" "USD" 1 1 =
      (⟨[Account.mk 0 "Wallet" 0 "USD" 0 0]⟩,
       Except.error (AccountServiceError.Domain
         (DomainError.AccountAlreadyExists "WALLET")))) ∧
    (create_account ⟨[]⟩ "Wallet" "USD" 1 1 =
      (Storage.create ⟨[]⟩ (Account.new "Wallet" "USD" 1 1),
       Except.ok (Account.new "Wallet" "USD" 1 1)) ∧
     (Account.new "Wallet" "USD" 1 1).balance = 0) :=
  ⟨(c4_create_account ⟨[Account.mk 0 "Wallet" 0 "USD" 0 0]⟩ "WALLET" "USD"
      1 1).1
    ⟨Account.mk 0 "Wallet" 0 "USD" 0 0, by decide, by decide⟩,
   (c4_create_account ⟨[]⟩ "Wallet" "USD" 1 1).2 (by simp)⟩

/-! ## C5: entity failure leaves the store unwritten -/

/-- C5: in the Deposit use case (and the identically shaped Withdraw use
case), when the entity mutation fails, the service surfaces that domain
error and returns the store exactly as it was: `update` is never
reached. -/
theorem c5_no_write_on_entity_failure (s : Storage) (id : Nat)
    (amountCents : Int) (now : Nat) (a : Account) (e e' : DomainError)
    (hfind : s.find_by_id id = some a) :
    ((a.deposit amountCents now).2 = some e →
      service_deposit s id amountCents now =
        (s, Except.error (AccountServiceError.Domain e))) ∧
    ((a.withdraw amountCents now).2 = some e' →
      service_withdraw s id amountCents now =
        (s, Except.error (AccountServiceError.Domain e'))) := by
  constructor
  · intro h
    simp only [service_deposit, hfind]
    cases hx : a.deposit amountCents now with
    | mk a1 r =>
      rw [hx] at h
      simp only at h
      subst h
      rfl
  · intro h
    simp only [service_withdraw, hfind]
    cases hx : a.withdraw amountCents now with
    | mk a1 r =>
      rw [hx] at h
      simp only at h
      subst h
      rfl

/-- Witness for C5: a deposit and a withdrawal of −5 both fail inside the
entity, and the service returns the store untouched with the entity's
`InvalidAmount` error. -/
theorem c5_no_write_on_entity_failure_witness :
    service_deposit ⟨[Account.mk 7 "W" 100 "USD" 0 0]⟩ 7 (-5) 3 =
      (⟨[Account.mk 7 "W" 100 "USD" 0 0]⟩,
       Except.error (AccountServiceError.Domain
         (DomainError.InvalidAmount "Amount must be positive"))) ∧
    service_withdraw ⟨[Account.mk 7 "W" 100 "USD" 0 0]⟩ 7 (-5) 3 =
      (⟨[Account.mk 7 "W" 100 "USD" 0 0]⟩,
       Except.error (AccountServiceError.Domain
         (DomainError.InvalidAmount "Amount must be positive"))) :=
  ⟨(c5_no_write_on_entity_failure ⟨[Account.mk 7 "W" 100 "USD" 0 0]⟩ 7 (-5) 3
      (Account.mk 7 "W" 100 "USD" 0 0)
      (DomainError.InvalidAmount "Amount must be positive")
      (DomainError.InvalidAmount "Amount must be positive")
      (by decide)).1 (by decide),
   (c5_no_write_on_entity_failure ⟨[Account.mk 7 "W" 100 "USD" 0 0]⟩ 7 (-5) 3
      (Account.mk 7 "W" 100 "USD" 0 0)
      (DomainError.InvalidAmount "Amount must be positive")
      (DomainError.InvalidAmount "Amount must be positive")
      (by decide)).2 (by decide)⟩

end FinanceTracker
